import Mathlib

/-
Verification of the nmcli connection-reconciliation module
(lib/ansible/modules/net_tools/nmcli.py).

The module's command lists are Python lists whose elements are strings or
None (several builders append a possibly-None field value directly), so a
command token is modelled as `Option String`.  The external Executor
(`module.run_command` via `Nmcli.execute_command`) is modelled as an
environment mapping each invocation argument to a result triple; a run of
the reconciler produces the ordered trace of Executor invocations together
with its outcome.  One code path calls `execute_command` with the result
triple of a previous call instead of a token list (the tail of
`create_connection` reuses the variable `cmd`, which by then holds the
value returned by `up_connection`), so an invocation argument is either a
token list or a result triple.
-/

namespace Nmcli

/-- Result triple of one Executor invocation: (exit code, stdout, stderr). -/
structure RunResult where
  rc : Nat
  out : String
  err : String
  deriving Repr, DecidableEq

/-- Argument of one `execute_command` invocation: a command token list, or
(in the defective tail of `create_connection`) the result triple of a
previous invocation. -/
inductive ExecArg where
  | args (a : List (Option String))
  | result (r : RunResult)
  deriving Repr, DecidableEq

/-- Executor environment: what `module.run_command` returns for each
invocation argument. -/
def Env := ExecArg → RunResult

/-- State of the `Nmcli` object after `__init__`: each module parameter as
stored on `self`.  `dns4` holds the raw list parameter; the joined form
computed in `__init__` is `dns4j` below.  Fields that no command builder
ever reads (bridge and vlan parameters, mac) are omitted. -/
structure NSpec where
  state : String
  autoconnect : Option Bool
  conn_name : Option String
  master : Option String
  ifname : Option String
  type : Option String
  ip4 : Option String
  gw4 : Option String
  dns4 : Option (List String)
  ip6 : Option String
  gw6 : Option String
  dns6 : Option String
  mtu : Option String
  mode : Option String
  miimon : Option String
  primary : Option String
  downdelay : Option String
  updelay : Option String
  arp_interval : Option String
  arp_ip_target : Option String
  deriving Repr, DecidableEq

/-- Spec with every optional field unset; concrete inputs below override
the fields they need. -/
def emptySpec : NSpec :=
  { state := "present", autoconnect := none, conn_name := none, master := none
    ifname := none, type := none, ip4 := none, gw4 := none, dns4 := none
    ip6 := none, gw6 := none, dns6 := none, mtu := none, mode := none
    miimon := none, primary := none, downdelay := none, updelay := none
    arp_interval := none, arp_ip_target := none }

/-- Joined DNS field of `__init__`:
`self.dns4 = ' '.join(module.params['dns4']) if module.params.get('dns4') else None`;
an absent or empty list gives None, a non-empty list is space-joined. -/
def NSpec.dns4j (s : NSpec) : Option String :=
  match s.dns4 with
  | none => none
  | some l => if l = [] then none else some (String.intercalate " " l)

/-- Resolved binary path
`self.nmcli_bin = self.module.get_bin_path('nmcli', True)`, modelled as the
fixed token nmcli. -/
def nmcli_bin : String := "nmcli"

/-- Rendering of booleans, `bool_to_string`: True gives yes, False gives no. -/
def bool_to_string (b : Bool) : String := if b then "yes" else "no"

/-- Emission of one optional string field:
`if v is not None: cmd.append(k); cmd.append(v)`. -/
def optPair (k : String) (v : Option String) : List (Option String) :=
  match v with
  | none => []
  | some x => [some k, some x]

/-- Emission of the autoconnect flag:
`if self.autoconnect is not None: cmd.append('autoconnect');
cmd.append(self.bool_to_string(self.autoconnect))`. -/
def optAutoconnect (v : Option Bool) : List (Option String) :=
  match v with
  | none => []
  | some b => [some "autoconnect", some (bool_to_string b)]

/-- Fallback append used by every create builder:
`if a is not None: cmd.append(a) elif b is not None: cmd.append(b)`
(the con-name / ifname fallback). -/
def nameFallback (a b : Option String) : List (Option String) :=
  match a with
  | some x => [some x]
  | none => match b with
            | some y => [some y]
            | none => []

/-- Builder `create_connection_team`. -/
def create_connection_team (s : NSpec) : List (Option String) :=
  [some nmcli_bin, some "con", some "add", some "type", some "team", some "con-name"]
    ++ nameFallback s.conn_name s.ifname
    ++ [some "ifname"] ++ nameFallback s.ifname s.conn_name
    ++ optPair "ip4" s.ip4 ++ optPair "gw4" s.gw4
    ++ optPair "ip6" s.ip6 ++ optPair "gw6" s.gw6
    ++ optAutoconnect s.autoconnect

/-- Builder `modify_connection_team`; `self.conn_name` is appended directly
(it may be None).  MTU is never emitted for team. -/
def modify_connection_team (s : NSpec) : List (Option String) :=
  [some nmcli_bin, some "con", some "mod", s.conn_name]
    ++ optPair "ipv4.address" s.ip4 ++ optPair "ipv4.gateway" s.gw4
    ++ optPair "ipv4.dns" s.dns4j
    ++ optPair "ipv6.address" s.ip6 ++ optPair "ipv6.gateway" s.gw6
    ++ optPair "ipv6.dns" s.dns6
    ++ optAutoconnect s.autoconnect

/-- Builder `create_connection_team_slave`: the type token is `self.type`,
the master key is always appended, and the master VALUE is appended only
when `self.conn_name` is not None (the source tests conn_name, not
master). -/
def create_connection_team_slave (s : NSpec) : List (Option String) :=
  [some nmcli_bin, some "connection", some "add", some "type", s.type, some "con-name"]
    ++ nameFallback s.conn_name s.ifname
    ++ [some "ifname"] ++ nameFallback s.ifname s.conn_name
    ++ [some "master"]
    ++ (if s.conn_name ≠ none then [s.master] else [])

/-- Builder `modify_connection_team_slave`; conn_name and master appended
directly. -/
def modify_connection_team_slave (s : NSpec) : List (Option String) :=
  [some nmcli_bin, some "con", some "mod", s.conn_name,
   some "connection.master", s.master]
    ++ optPair "802-3-ethernet.mtu" s.mtu

/-- Builder `create_connection_bond`.  In the source the guards for
updelay, arp-interval and arp-ip-target all test `self.downdelay`, and
append the (possibly None) field values directly. -/
def create_connection_bond (s : NSpec) : List (Option String) :=
  [some nmcli_bin, some "con", some "add", some "type", some "bond", some "con-name"]
    ++ nameFallback s.conn_name s.ifname
    ++ [some "ifname"] ++ nameFallback s.ifname s.conn_name
    ++ optPair "mode" s.mode
    ++ optPair "ip4" s.ip4 ++ optPair "gw4" s.gw4
    ++ optPair "ip6" s.ip6 ++ optPair "gw6" s.gw6
    ++ optAutoconnect s.autoconnect
    ++ optPair "miimon" s.miimon
    ++ optPair "downdelay" s.downdelay
    ++ (if s.downdelay ≠ none then [some "updelay", s.updelay] else [])
    ++ (if s.downdelay ≠ none then [some "arp-interval", s.arp_interval] else [])
    ++ (if s.downdelay ≠ none then [some "arp-ip-target", s.arp_ip_target] else [])
    ++ optPair "primary" s.primary

/-- Builder `modify_connection_bond`. -/
def modify_connection_bond (s : NSpec) : List (Option String) :=
  [some nmcli_bin, some "con", some "mod", s.conn_name]
    ++ optPair "ipv4.address" s.ip4 ++ optPair "ipv4.gateway" s.gw4
    ++ optPair "ipv4.dns" s.dns4j
    ++ optPair "ipv6.address" s.ip6 ++ optPair "ipv6.gateway" s.gw6
    ++ optPair "ipv6.dns" s.dns6
    ++ optAutoconnect s.autoconnect

/-- Builder `create_connection_bond_slave`: like team-slave, with literal
type token bond-slave; the master value is again guarded by conn_name. -/
def create_connection_bond_slave (s : NSpec) : List (Option String) :=
  [some nmcli_bin, some "connection", some "add", some "type", some "bond-slave",
   some "con-name"]
    ++ nameFallback s.conn_name s.ifname
    ++ [some "ifname"] ++ nameFallback s.ifname s.conn_name
    ++ [some "master"]
    ++ (if s.conn_name ≠ none then [s.master] else [])

/-- Builder `modify_connection_bond_slave`. -/
def modify_connection_bond_slave (s : NSpec) : List (Option String) :=
  [some nmcli_bin, some "con", some "mod", s.conn_name,
   some "connection.master", s.master]

/-- Builder `create_connection_ethernet(conn_type)`: shared by ethernet and
generic; only the type token differs (and nothing is appended for any
other conn_type value). -/
def create_connection_ethernet (s : NSpec) (conn_type : String) : List (Option String) :=
  [some nmcli_bin, some "con", some "add", some "type"]
    ++ (if conn_type = "ethernet" then [some "ethernet"]
        else if conn_type = "generic" then [some "generic"] else [])
    ++ [some "con-name"]
    ++ nameFallback s.conn_name s.ifname
    ++ [some "ifname"] ++ nameFallback s.ifname s.conn_name
    ++ optPair "ip4" s.ip4 ++ optPair "gw4" s.gw4
    ++ optPair "ip6" s.ip6 ++ optPair "gw6" s.gw6
    ++ optAutoconnect s.autoconnect

/-- Builder `modify_connection_ethernet(conn_type)`: MTU is emitted only
when set and conn_type is ethernet. -/
def modify_connection_ethernet (s : NSpec) (conn_type : String) : List (Option String) :=
  [some nmcli_bin, some "con", some "mod", s.conn_name]
    ++ optPair "ipv4.address" s.ip4 ++ optPair "ipv4.gateway" s.gw4
    ++ optPair "ipv4.dns" s.dns4j
    ++ optPair "ipv6.address" s.ip6 ++ optPair "ipv6.gateway" s.gw6
    ++ optPair "ipv6.dns" s.dns6
    ++ (if s.mtu ≠ none ∧ conn_type = "ethernet" then [some "802-3-ethernet.mtu", s.mtu]
        else [])
    ++ optAutoconnect s.autoconnect

/-- Stubbed builders `create_connection_bridge`, `create_connection_vlan`,
`modify_connection_bridge`, `modify_connection_vlan`: the command is just
the binary. -/
def stub_connection_cmd : List (Option String) := [some nmcli_bin]

/-- Command of `up_connection`. -/
def up_cmd (s : NSpec) : List (Option String) :=
  [some nmcli_bin, some "con", some "up", s.conn_name]

/-- Command of `down_connection`. -/
def down_cmd (s : NSpec) : List (Option String) :=
  [some nmcli_bin, some "con", some "down", s.conn_name]

/-- Command of `remove_connection`. -/
def remove_cmd (s : NSpec) : List (Option String) :=
  [some nmcli_bin, some "con", some "del", s.conn_name]

/-- Connection profile as discovered over the settings service:
`list_connection_info` appends, per connection, the id, uuid and type of
its connection setting and then the stringified settings dump (a list of
strings, produced by `connection_to_string`). -/
structure ConnectionRecord where
  id : String
  uuid : String
  type : String
  settings : List String
  deriving Repr, DecidableEq

/-- Element of the flat list built by `list_connection_info`: three strings
per record followed by the settings dump, which is a Python list (never
string-equal to a connection name). -/
inductive ConnItem where
  | str (x : String)
  | strs (l : List String)
  deriving Repr, DecidableEq

/-- Flat discovery list of `list_connection_info`:
[id, uuid, type, settings-dump] for each record in order. -/
def list_connection_info : List ConnectionRecord → List ConnItem
  | [] => []
  | r :: rest =>
      ConnItem.str r.id :: ConnItem.str r.uuid :: ConnItem.str r.type ::
        ConnItem.strs r.settings :: list_connection_info rest

/-- Existence check `connection_exists`: True when
`self.conn_name == con_item` for some element of the flat list (a string
compared with the settings dump, a list, is never equal). -/
def connection_exists (s : NSpec) (inv : List ConnectionRecord) : Bool :=
  (list_connection_info inv).any fun it =>
    match it with
    | ConnItem.str x => s.conn_name = some x
    | ConnItem.strs _ => false

/-- Outcome of one create or modify run: the trace of `execute_command`
invocations it makes, and the result of the final
`return self.execute_command(cmd)` when a command was built (`none` models
the `fail_json` taken when `cmd` stayed empty, i.e. the type was missing
or unknown). -/
abbrev PhaseRun := List ExecArg × Option RunResult

/-- Single-phase tail `if cmd: return self.execute_command(cmd)` for a
built command list (every builder starts its list with the binary, so the
list is non-empty and truthy). -/
def singleExec (env : Env) (c : List (Option String)) : PhaseRun :=
  ([ExecArg.args c], some (env (ExecArg.args c)))

/-- Orchestrator `create_connection`: the per-type dispatch, with the
two-phase branches for team, bond and ethernet (create, modify, up) and
for team-slave (create, modify, no up).  After a two-phase branch the
variable `cmd` holds, for team/bond/ethernet, the result triple returned
by `up_connection` (a truthy tuple), and for team-slave the modify command
list; the trailing `if cmd: return self.execute_command(cmd)` therefore
issues one further invocation with that value.  The generic branch builds
a single create command with no two-phase handling. -/
def create_connection (s : NSpec) (env : Env) : PhaseRun :=
  if s.type = some "team" then
    if s.dns4j ≠ none ∨ s.dns6 ≠ none then
      let c1 := create_connection_team s
      let c2 := modify_connection_team s
      let cu := up_cmd s
      let r := env (ExecArg.args cu)
      ([ExecArg.args c1, ExecArg.args c2, ExecArg.args cu, ExecArg.result r],
       some (env (ExecArg.result r)))
    else if s.dns4j = none ∨ s.dns6 = none then
      singleExec env (create_connection_team s)
    else ([], none)
  else if s.type = some "team-slave" then
    if s.mtu ≠ none then
      let c1 := create_connection_team_slave s
      let c2 := modify_connection_team_slave s
      ([ExecArg.args c1, ExecArg.args c2, ExecArg.args c2],
       some (env (ExecArg.args c2)))
    else
      singleExec env (create_connection_team_slave s)
  else if s.type = some "bond" then
    if s.mtu ≠ none ∨ s.dns4j ≠ none ∨ s.dns6 ≠ none then
      let c1 := create_connection_bond s
      let c2 := modify_connection_bond s
      let cu := up_cmd s
      let r := env (ExecArg.args cu)
      ([ExecArg.args c1, ExecArg.args c2, ExecArg.args cu, ExecArg.result r],
       some (env (ExecArg.result r)))
    else
      singleExec env (create_connection_bond s)
  else if s.type = some "bond-slave" then
    singleExec env (create_connection_bond_slave s)
  else if s.type = some "ethernet" then
    if s.mtu ≠ none ∨ s.dns4j ≠ none ∨ s.dns6 ≠ none then
      let c1 := create_connection_ethernet s "ethernet"
      let c2 := modify_connection_ethernet s "ethernet"
      let cu := up_cmd s
      let r := env (ExecArg.args cu)
      ([ExecArg.args c1, ExecArg.args c2, ExecArg.args cu, ExecArg.result r],
       some (env (ExecArg.result r)))
    else
      singleExec env (create_connection_ethernet s "ethernet")
  else if s.type = some "bridge" then
    singleExec env stub_connection_cmd
  else if s.type = some "vlan" then
    singleExec env stub_connection_cmd
  else if s.type = some "generic" then
    singleExec env (create_connection_ethernet s "generic")
  else ([], none)

/-- Command list chosen by `modify_connection` for each type (`none` when
the type is missing or unknown, in which case `cmd` stays empty and the
function falls to `fail_json`). -/
def modify_cmd (s : NSpec) : Option (List (Option String)) :=
  if s.type = some "team" then some (modify_connection_team s)
  else if s.type = some "team-slave" then some (modify_connection_team_slave s)
  else if s.type = some "bond" then some (modify_connection_bond s)
  else if s.type = some "bond-slave" then some (modify_connection_bond_slave s)
  else if s.type = some "ethernet" then some (modify_connection_ethernet s "ethernet")
  else if s.type = some "bridge" then some stub_connection_cmd
  else if s.type = some "vlan" then some stub_connection_cmd
  else if s.type = some "generic" then some (modify_connection_ethernet s "generic")
  else none

/-- Dispatch `modify_connection`: build the per-type command and execute it
once. -/
def modify_connection (s : NSpec) (env : Env) : PhaseRun :=
  match modify_cmd s with
  | some c => singleExec env c
  | none => ([], none)

/-- Values `main` reports through `exit_json`: the changed flag and the
stdout/stderr keys (set only when the captured text is non-empty). -/
structure MainResult where
  changed : Bool
  stdout : Option String
  stderr : Option String
  deriving Repr, DecidableEq

/-- Termination of one `main` run: `exit_json` with a result, or
`fail_json` with a message. -/
inductive Outcome where
  | ok (r : MainResult)
  | failed (msg : String)
  deriving Repr, DecidableEq

/-- Message of the conn_name validation check. -/
def msgNoName : String := "Please specify a name for the connection"

/-- Message of the team-slave master validation check. -/
def msgNoMaster : String := "Please specify a name for the master"

/-- Message of the team-slave ifname validation check. -/
def msgNoIfname : String := "Please specify an interface name for the connection"

/-- Message of the type-missing `fail_json` in `create_connection` and
`modify_connection` (apostrophes elided). -/
def msgTypeRequired : String :=
  "Type of device or network connection is required. Please specify type as an argument."

/-- Truthiness of captured output: `if out: result['stdout'] = out` — the
key is set only when the string is non-empty. -/
def outOpt (x : String) : Option String := if x = "" then none else some x

/-- Tail of `main`: rc None means changed False; otherwise changed True
with stdout/stderr carried over when non-empty. -/
def finish : Option RunResult → Outcome
  | none => Outcome.ok ⟨false, none, none⟩
  | some r => Outcome.ok ⟨true, outOpt r.out, outOpt r.err⟩

/-- Outcome `main` derives from a finished create or modify phase:
`fail_json` when no command could be built (missing type), `fail_json`
with stderr when the final exit code is non-zero, `exit_json` otherwise. -/
def phaseOutcome : PhaseRun → Outcome
  | (_, none) => Outcome.failed msgTypeRequired
  | (_, some r) => if r.rc ≠ 0 then Outcome.failed r.err else finish (some r)

/-- Entry point `main`: input validation, then the state machine over
(state, existence, check-mode).  Discovery is modelled as the fixed
inventory `inv`, so the second `connection_exists()` call in the present
branch returns the same value as the first and exactly one of the modify /
create bodies runs.  In the absent-and-exists branch the result triple of
`down_connection` is overwritten by that of `remove_connection` before it
is ever read. -/
def runMain (s : NSpec) (inv : List ConnectionRecord) (env : Env) (check_mode : Bool) :
    Outcome × List ExecArg :=
  if s.conn_name = none then (Outcome.failed msgNoName, [])
  else if s.type = some "team-slave" ∧ s.master = none then (Outcome.failed msgNoMaster, [])
  else if s.type = some "team-slave" ∧ s.ifname = none then (Outcome.failed msgNoIfname, [])
  else if s.state = "absent" then
    if connection_exists s inv then
      if check_mode then (Outcome.ok ⟨true, none, none⟩, [])
      else
        let r := env (ExecArg.args (remove_cmd s))
        let tr := [ExecArg.args (down_cmd s), ExecArg.args (remove_cmd s)]
        if r.rc ≠ 0 then (Outcome.failed r.err, tr) else (finish (some r), tr)
    else (finish none, [])
  else if s.state = "present" then
    if connection_exists s inv then
      if check_mode then (Outcome.ok ⟨true, none, none⟩, [])
      else
        let p := modify_connection s env
        (phaseOutcome p, p.1)
    else
      if check_mode then (Outcome.ok ⟨true, none, none⟩, [])
      else
        let p := create_connection s env
        (phaseOutcome p, p.1)
  else (finish none, [])

/-- Executor environment in which every invocation exits 0 with empty
output. -/
def env0 : Env := fun _ => ⟨0, "", ""⟩

/-- Two-phase policy as the code implements it (the amended claim C1):
team iff DNS is set, team-slave iff MTU is set, bond and ethernet iff MTU
or DNS is set, and every other type — including generic and bond-slave —
single-phase.  Written from the amended claim's words, to be compared with
the orchestrator `create_connection`. -/
def two_phase_policy (s : NSpec) : Bool :=
  if s.type = some "team" then s.dns4j.isSome || s.dns6.isSome
  else if s.type = some "team-slave" then s.mtu.isSome
  else if s.type = some "bond" then s.mtu.isSome || s.dns4j.isSome || s.dns6.isSome
  else if s.type = some "ethernet" then s.mtu.isSome || s.dns4j.isSome || s.dns6.isSome
  else false

/-- Generic-type spec with MTU set (claim C1 predicts a two-phase create
for it; the code performs a single create call). -/
def spec_c1 : NSpec :=
  { emptySpec with conn_name := some "g0", type := some "generic", mtu := some "9000" }

/-- Team-slave spec with MTU set: a two-phase create per the policy. -/
def spec_c2 : NSpec :=
  { emptySpec with
    conn_name := some "ts0"
    type := some "team-slave"
    master := some "m0"
    ifname := some "em1"
    mtu := some "9000" }

/-- Team spec with IPv6 DNS set: a two-phase create per the policy. -/
def spec_c2w : NSpec :=
  { emptySpec with conn_name := some "t0", type := some "team", dns6 := some "2001:db8::53" }

/-- Bond spec with downdelay set and updelay, arp_interval, arp_ip_target
unset. -/
def spec_c3 : NSpec :=
  { emptySpec with
    conn_name := some "b0"
    type := some "bond"
    mode := some "balance-rr"
    downdelay := some "5" }

/-- Bond spec with updelay set and downdelay unset. -/
def spec_c3b : NSpec :=
  { emptySpec with
    conn_name := some "b1"
    type := some "bond"
    mode := some "balance-rr"
    updelay := some "7" }

/-- Desired name equal to the UUID (not the name) of the one existing
record. -/
def spec_c4 : NSpec := { emptySpec with conn_name := some "8b1f3e4c" }

/-- Inventory with one record whose name is eth-home and whose uuid is
8b1f3e4c. -/
def inv_c4 : List ConnectionRecord :=
  [⟨"eth-home", "8b1f3e4c", "802-3-ethernet", ["id: eth-home"]⟩]

/-- Bond-slave spec with master unset, state present. -/
def spec_c5 : NSpec :=
  { emptySpec with conn_name := some "bs0", type := some "bond-slave", state := "present" }

/-- Team-slave spec with master unset (ifname set), state present. -/
def spec_c5w : NSpec :=
  { emptySpec with
    conn_name := some "ts1"
    type := some "team-slave"
    ifname := some "em1"
    state := "present" }

/-- Ethernet spec, state present, used against an empty inventory. -/
def spec_c6w : NSpec :=
  { emptySpec with conn_name := some "e0", type := some "ethernet", state := "present" }

/-- Spec of the worked example of claim C7. -/
def spec_c7 : NSpec :=
  { emptySpec with
    conn_name := some "my-eth1"
    type := some "ethernet"
    ip4 := some "192.0.2.100/24"
    gw4 := some "192.0.2.1"
    state := "present"
    mode := some "balance-rr" }

/-- Team spec whose IPv4 DNS list has four entries. -/
def spec_c8 : NSpec :=
  { emptySpec with
    conn_name := some "t1"
    type := some "team"
    dns4 := some ["192.0.2.1", "192.0.2.2", "192.0.2.3", "192.0.2.4"] }

/-- Team spec whose IPv4 DNS list has two entries. -/
def spec_c8w : NSpec :=
  { emptySpec with
    conn_name := some "t2"
    type := some "team"
    dns4 := some ["8.8.8.8", "9.9.9.9"] }

/-- Ethernet spec, state present, whose name matches a record of the
inventory `inv_c9`. -/
def spec_c9 : NSpec :=
  { emptySpec with conn_name := some "e1", type := some "ethernet", state := "present" }

/-- Inventory with one record named e1 (arbitrary settings). -/
def inv_c9 : List ConnectionRecord := [⟨"e1", "u-1", "802-3-ethernet", ["mtu: 1500"]⟩]

/-- Spec of state absent whose name matches a record of `inv_c10`. -/
def spec_c10 : NSpec := { emptySpec with conn_name := some "old-eth0", state := "absent" }

/-- Inventory with one record named old-eth0. -/
def inv_c10 : List ConnectionRecord := [⟨"old-eth0", "u-10", "802-3-ethernet", []⟩]

/-- Executor environment in which the deactivation of old-eth0 fails with
exit code 1 and every other invocation exits 0. -/
def env_c10 : Env := fun a =>
  if a = ExecArg.args (down_cmd spec_c10) then ⟨1, "", "deactivation failed"⟩
  else ⟨0, "", ""⟩

/-- Lemma: a create or modify phase that ends in `exit_json` always reports
changed True. -/
theorem phaseOutcome_ok_changed (p : PhaseRun) (r : MainResult)
    (h : phaseOutcome p = Outcome.ok r) : r.changed = true := by
  obtain ⟨tr, res⟩ := p
  cases res with
  | none => simp [phaseOutcome] at h
  | some rr =>
      by_cases hrc : rr.rc ≠ 0
      · simp [phaseOutcome, hrc] at h
      · simp [phaseOutcome, hrc, finish] at h
        rw [← h]

/-- C1 counterexample: a generic spec with MTU set whose create is a single
Executor call, although the claim requires a two-phase create for type
generic whenever MTU or DNS is set. -/
theorem c1_counterexample :
    spec_c1.type = some "generic" ∧ spec_c1.mtu ≠ none ∧
      ¬ 1 < (create_connection spec_c1 env0).1.length := by
  refine ⟨rfl, by decide, by decide⟩

/-- C1 (amended): the create operation issues more than one Executor
invocation exactly when the two-phase policy holds: for team iff dns4 or
dns6 is set, for team-slave iff MTU is set, for bond and for ethernet iff
MTU or dns4 or dns6 is set, and never for any other type — in particular
generic and bond-slave creates are always single-phase. -/
theorem c1_two_phase_characterization (s : NSpec) (env : Env) :
    1 < (create_connection s env).1.length ↔ two_phase_policy s = true := by
  unfold create_connection two_phase_policy
  split_ifs <;> simp_all [singleExec, Option.isSome_iff_ne_none] <;> tauto

/-- C2 counterexample: a team-slave spec with MTU set has a two-phase
create, but its Executor invocation sequence is not create-then-modify-
then-activation. -/
theorem c2_counterexample :
    1 < (create_connection spec_c2 env0).1.length ∧
      (create_connection spec_c2 env0).1 ≠
        [ExecArg.args (create_connection_team_slave spec_c2),
         ExecArg.args (modify_connection_team_slave spec_c2),
         ExecArg.args (up_cmd spec_c2)] := by
  refine ⟨by decide, by decide⟩

/-- C2 (amended): for team, bond and ethernet, a two-phase create issues the
create argument list, the modify argument list, the activation argument
list, and then one further Executor invocation whose argument is the
activation call's result triple rather than a token list; for team-slave,
a two-phase create issues the create argument list, the modify argument
list, and then the modify argument list a second time, with no activation
call. -/
theorem c2_two_phase_sequences (s : NSpec) (env : Env) :
    (s.type = some "team" → (s.dns4j ≠ none ∨ s.dns6 ≠ none) →
      (create_connection s env).1 =
        [ExecArg.args (create_connection_team s), ExecArg.args (modify_connection_team s),
         ExecArg.args (up_cmd s), ExecArg.result (env (ExecArg.args (up_cmd s)))]) ∧
    (s.type = some "bond" → (s.mtu ≠ none ∨ s.dns4j ≠ none ∨ s.dns6 ≠ none) →
      (create_connection s env).1 =
        [ExecArg.args (create_connection_bond s), ExecArg.args (modify_connection_bond s),
         ExecArg.args (up_cmd s), ExecArg.result (env (ExecArg.args (up_cmd s)))]) ∧
    (s.type = some "ethernet" → (s.mtu ≠ none ∨ s.dns4j ≠ none ∨ s.dns6 ≠ none) →
      (create_connection s env).1 =
        [ExecArg.args (create_connection_ethernet s "ethernet"),
         ExecArg.args (modify_connection_ethernet s "ethernet"),
         ExecArg.args (up_cmd s), ExecArg.result (env (ExecArg.args (up_cmd s)))]) ∧
    (s.type = some "team-slave" → s.mtu ≠ none →
      (create_connection s env).1 =
        [ExecArg.args (create_connection_team_slave s),
         ExecArg.args (modify_connection_team_slave s),
         ExecArg.args (modify_connection_team_slave s)]) := by
  refine ⟨?_, ?_, ?_, ?_⟩ <;> intro ht hc <;> simp [create_connection, ht, hc]

/-- C2 witness: the amended sequence at a concrete team spec with IPv6 DNS
set. -/
theorem c2_two_phase_sequences_witness :
    (create_connection spec_c2w env0).1 =
      [ExecArg.args (create_connection_team spec_c2w),
       ExecArg.args (modify_connection_team spec_c2w),
       ExecArg.args (up_cmd spec_c2w),
       ExecArg.result (env0 (ExecArg.args (up_cmd spec_c2w)))] :=
  (c2_two_phase_sequences spec_c2w env0).1 rfl (by decide)

/-- C3: the bond create builder, evaluated at a spec with downdelay set but
updelay, arp_interval and arp_ip_target unset, emits the keys updelay,
arp-interval and arp-ip-target each followed by a null value; evaluated at
a spec with updelay set but downdelay unset, it emits no updelay pair at
all.  The guards of these three fields test downdelay instead of the field
itself. -/
theorem c3_bond_null_field_tokens :
    create_connection_bond spec_c3 =
      [some nmcli_bin, some "con", some "add", some "type", some "bond", some "con-name",
       some "b0", some "ifname", some "b0", some "mode", some "balance-rr",
       some "downdelay", some "5", some "updelay", none,
       some "arp-interval", none, some "arp-ip-target", none] ∧
    create_connection_bond spec_c3b =
      [some nmcli_bin, some "con", some "add", some "type", some "bond", some "con-name",
       some "b1", some "ifname", some "b1", some "mode", some "balance-rr"] := by
  refine ⟨by decide, by decide⟩

/-- C4 counterexample: the existence check returns true for a desired name
that equals a record's UUID while matching no record's name. -/
theorem c4_counterexample :
    connection_exists spec_c4 inv_c4 = true ∧
      (inv_c4.all fun r => !(spec_c4.conn_name == some r.id)) = true := by
  refine ⟨by decide, by decide⟩

/-- C4 (amended): the existence check returns true exactly when the desired
name is string-equal to some record's name, UUID, or type field (the check
compares the name against every string in the flattened discovery list). -/
theorem c4_exists_characterization (s : NSpec) (inv : List ConnectionRecord) :
    connection_exists s inv = true ↔
      ∃ r ∈ inv, s.conn_name = some r.id ∨ s.conn_name = some r.uuid ∨
        s.conn_name = some r.type := by
  induction inv with
  | nil => simp [connection_exists, list_connection_info]
  | cons r rest ih =>
      simp only [connection_exists, list_connection_info, List.any_cons] at ih ⊢
      simp only [List.mem_cons]
      constructor
      · intro h
        simp at h
        rcases h with h | h | h | h
        · exact ⟨r, Or.inl rfl, Or.inl h⟩
        · exact ⟨r, Or.inl rfl, Or.inr (Or.inl h)⟩
        · exact ⟨r, Or.inl rfl, Or.inr (Or.inr h)⟩
        · obtain ⟨q, hq, hm⟩ := ih.mp (by simpa using h)
          exact ⟨q, Or.inr hq, hm⟩
      · rintro ⟨q, hq | hq, hm⟩
        · subst hq
          simp
          tauto
        · have := ih.mpr ⟨q, hq, hm⟩
          simp at this ⊢
          tauto

/-- C5 counterexample: a bond-slave spec with master unset is not rejected:
reconciliation invokes the Executor and reports changed true. -/
theorem c5_counterexample :
    spec_c5.master = none ∧ (runMain spec_c5 [] env0 false).2 ≠ [] ∧
      (runMain spec_c5 [] env0 false).1 = Outcome.ok ⟨true, none, none⟩ := by
  refine ⟨rfl, by decide, by decide⟩

/-- C5 (amended): a team-slave spec with master unset is reported as a
configuration error immediately, with no Executor invocation, in every
mode and against every inventory; bond-slave specs are not checked. -/
theorem c5_team_slave_master_required (s : NSpec) (inv : List ConnectionRecord)
    (env : Env) (cm : Bool) (ht : s.type = some "team-slave") (hm : s.master = none) :
    (runMain s inv env cm).2 = [] ∧
      ∃ m, (runMain s inv env cm).1 = Outcome.failed m := by
  by_cases hn : s.conn_name = none
  · exact ⟨by simp [runMain, hn], msgNoName, by simp [runMain, hn]⟩
  · exact ⟨by simp [runMain, hn, ht, hm], msgNoMaster, by simp [runMain, hn, ht, hm]⟩

/-- C5 witness: the amended claim at a concrete team-slave spec with master
unset. -/
theorem c5_team_slave_master_required_witness :
    (runMain spec_c5w [] env0 false).2 = [] ∧
      ∃ m, (runMain spec_c5w [] env0 false).1 = Outcome.failed m :=
  c5_team_slave_master_required spec_c5w [] env0 false rfl rfl

/-- C6: a check-mode run makes no Executor invocation, and whenever the
equivalent non-check run terminates through `exit_json` with some changed
verdict, the check-mode run terminates through `exit_json` with the same
changed verdict. -/
theorem c6_dry_run_equivalence (s : NSpec) (inv : List ConnectionRecord) (env : Env) :
    (runMain s inv env true).2 = [] ∧
    (∀ r : MainResult, (runMain s inv env false).1 = Outcome.ok r →
      (runMain s inv env true).1 = Outcome.ok ⟨r.changed, none, none⟩) := by
  constructor
  · unfold runMain
    split_ifs <;> simp_all [finish]
  · intro r h
    by_cases h1 : s.conn_name = none
    · simp [runMain, h1] at h
    by_cases h2 : s.type = some "team-slave" ∧ s.master = none
    · rw [runMain, if_neg h1, if_pos h2] at h
      simp at h
    by_cases h3 : s.type = some "team-slave" ∧ s.ifname = none
    · rw [runMain, if_neg h1, if_neg h2, if_pos h3] at h
      simp at h
    rw [runMain, if_neg h1, if_neg h2, if_neg h3] at h ⊢
    by_cases h4 : s.state = "absent"
    · rw [if_pos h4] at h ⊢
      by_cases h5 : connection_exists s inv = true
      · rw [if_pos h5] at h ⊢
        rw [if_neg (by decide : ¬ (false = true))] at h
        rw [if_pos rfl]
        by_cases h6 : (env (ExecArg.args (remove_cmd s))).rc ≠ 0
        · simp [h6] at h
        · simp [h6, finish] at h
          simp [← h]
      · rw [if_neg h5] at h ⊢
        simp [finish] at h
        simp [← h, finish]
    by_cases h7 : s.state = "present"
    · rw [if_neg h4, if_pos h7] at h ⊢
      by_cases h5 : connection_exists s inv = true
      · rw [if_pos h5] at h ⊢
        rw [if_neg (by decide : ¬ (false = true))] at h
        rw [if_pos rfl]
        simp only [] at h
        have := phaseOutcome_ok_changed _ r h
        simp [this]
      · rw [if_neg h5] at h ⊢
        rw [if_neg (by decide : ¬ (false = true))] at h
        rw [if_pos rfl]
        simp only [] at h
        have := phaseOutcome_ok_changed _ r h
        simp [this]
    · rw [if_neg h4, if_neg h7] at h ⊢
      simp [finish] at h
      simp [← h, finish]

/-- C6 witness: the check-mode run at an ethernet spec against an empty
inventory makes no Executor call and reports the non-check verdict
(changed true). -/
theorem c6_dry_run_equivalence_witness :
    (runMain spec_c6w [] env0 true).2 = [] ∧
      (runMain spec_c6w [] env0 true).1 = Outcome.ok ⟨true, none, none⟩ :=
  ⟨(c6_dry_run_equivalence spec_c6w [] env0).1,
   (c6_dry_run_equivalence spec_c6w [] env0).2 ⟨true, none, none⟩ (by decide)⟩

/-- C7: for the worked ethernet example the synthesized create command is
the binary followed by exactly the claimed tokens, the run issues that
single Executor invocation (no modify phase), and reports changed true. -/
theorem c7_ethernet_example :
    create_connection_ethernet spec_c7 "ethernet" =
      (nmcli_bin :: ["con", "add", "type", "ethernet", "con-name", "my-eth1", "ifname",
        "my-eth1", "ip4", "192.0.2.100/24", "gw4", "192.0.2.1"]).map some ∧
    (runMain spec_c7 [] env0 false).2 =
      [ExecArg.args (create_connection_ethernet spec_c7 "ethernet")] ∧
    (runMain spec_c7 [] env0 false).1 = Outcome.ok ⟨true, none, none⟩ := by
  refine ⟨by decide, by decide, by decide⟩

/-- C8 counterexample: a four-entry IPv4 DNS list is emitted whole
(space-joined, in order) in the modify command — no cap at three entries
is applied. -/
theorem c8_counterexample :
    spec_c8.dns4 = some ["192.0.2.1", "192.0.2.2", "192.0.2.3", "192.0.2.4"] ∧
    modify_connection_team spec_c8 =
      [some nmcli_bin, some "con", some "mod", some "t1", some "ipv4.dns",
       some "192.0.2.1 192.0.2.2 192.0.2.3 192.0.2.4"] := by
  refine ⟨rfl, by decide⟩

/-- C8 (amended): no cap is enforced: for every non-empty IPv4 DNS list,
each modify builder emits the pair ipv4.dns followed by the entries in
input order joined by single spaces, whatever the length of the list; the
IPv6 DNS field is a single string emitted verbatim. -/
theorem c8_dns_rendering (s : NSpec) (l : List String)
    (h4 : s.dns4 = some l) (hne : l ≠ []) :
    (∃ pre post, modify_connection_team s =
        pre ++ [some "ipv4.dns", some (String.intercalate " " l)] ++ post) ∧
    (∃ pre post, modify_connection_bond s =
        pre ++ [some "ipv4.dns", some (String.intercalate " " l)] ++ post) ∧
    (∀ ct, ∃ pre post, modify_connection_ethernet s ct =
        pre ++ [some "ipv4.dns", some (String.intercalate " " l)] ++ post) ∧
    (∀ d6, s.dns6 = some d6 →
      ∃ pre post, modify_connection_team s = pre ++ [some "ipv6.dns", some d6] ++ post) := by
  have hj : s.dns4j = some (String.intercalate " " l) := by
    simp [NSpec.dns4j, h4, hne]
  refine ⟨?_, ?_, ?_, ?_⟩
  · exact ⟨[some nmcli_bin, some "con", some "mod", s.conn_name]
        ++ optPair "ipv4.address" s.ip4 ++ optPair "ipv4.gateway" s.gw4,
      optPair "ipv6.address" s.ip6 ++ optPair "ipv6.gateway" s.gw6
        ++ optPair "ipv6.dns" s.dns6 ++ optAutoconnect s.autoconnect,
      by simp [modify_connection_team, hj, optPair]⟩
  · exact ⟨[some nmcli_bin, some "con", some "mod", s.conn_name]
        ++ optPair "ipv4.address" s.ip4 ++ optPair "ipv4.gateway" s.gw4,
      optPair "ipv6.address" s.ip6 ++ optPair "ipv6.gateway" s.gw6
        ++ optPair "ipv6.dns" s.dns6 ++ optAutoconnect s.autoconnect,
      by simp [modify_connection_bond, hj, optPair]⟩
  · intro ct
    exact ⟨[some nmcli_bin, some "con", some "mod", s.conn_name]
        ++ optPair "ipv4.address" s.ip4 ++ optPair "ipv4.gateway" s.gw4,
      optPair "ipv6.address" s.ip6 ++ optPair "ipv6.gateway" s.gw6
        ++ optPair "ipv6.dns" s.dns6
        ++ (if s.mtu ≠ none ∧ ct = "ethernet" then [some "802-3-ethernet.mtu", s.mtu]
            else [])
        ++ optAutoconnect s.autoconnect,
      by simp [modify_connection_ethernet, hj, optPair]⟩
  · intro d6 h6
    exact ⟨[some nmcli_bin, some "con", some "mod", s.conn_name]
        ++ optPair "ipv4.address" s.ip4 ++ optPair "ipv4.gateway" s.gw4
        ++ optPair "ipv4.dns" s.dns4j
        ++ optPair "ipv6.address" s.ip6 ++ optPair "ipv6.gateway" s.gw6,
      optAutoconnect s.autoconnect,
      by simp [modify_connection_team, h6, optPair]⟩

/-- C8 witness: the joined IPv4 DNS pair at a concrete two-entry list. -/
theorem c8_dns_rendering_witness :
    ∃ pre post, modify_connection_team spec_c8w =
      pre ++ [some "ipv4.dns", some (String.intercalate " " ["8.8.8.8", "9.9.9.9"])] ++ post :=
  (c8_dns_rendering spec_c8w ["8.8.8.8", "9.9.9.9"] rfl (by decide)).1

/-- C9: for every well-formed spec (type known to the dispatch, conn_name
set, team-slave constraints satisfied) of state present whose name matches
the inventory, the run issues exactly one Executor invocation — the
per-type modify command — and, when that command exits 0, reports changed
true; this holds for every inventory content, so no comparison of desired
settings against actual settings takes place. -/
theorem c9_modify_when_exists (s : NSpec) (inv : List ConnectionRecord) (env : Env)
    (c : List (Option String)) (hc : modify_cmd s = some c)
    (hn : s.conn_name ≠ none)
    (h1 : ¬(s.type = some "team-slave" ∧ s.master = none))
    (h2 : ¬(s.type = some "team-slave" ∧ s.ifname = none))
    (hst : s.state = "present")
    (hex : connection_exists s inv = true)
    (hrc : (env (ExecArg.args c)).rc = 0) :
    (runMain s inv env false).2 = [ExecArg.args c] ∧
    (runMain s inv env false).1 =
      Outcome.ok ⟨true, outOpt (env (ExecArg.args c)).out,
        outOpt (env (ExecArg.args c)).err⟩ := by
  simp [runMain, hn, h1, h2, hst, hex, modify_connection, hc, singleExec,
    phaseOutcome, hrc, finish]

/-- C9 witness: the modify invocation and changed-true verdict at a
concrete ethernet spec matching a record whose settings differ
arbitrarily. -/
theorem c9_modify_when_exists_witness :
    (runMain spec_c9 inv_c9 env0 false).2 =
      [ExecArg.args (modify_connection_ethernet spec_c9 "ethernet")] ∧
    (runMain spec_c9 inv_c9 env0 false).1 = Outcome.ok ⟨true, none, none⟩ :=
  c9_modify_when_exists spec_c9 inv_c9 env0
    (modify_connection_ethernet spec_c9 "ethernet") rfl (by decide) (by decide)
    (by decide) rfl (by decide) rfl

/-- C10: in the absent-and-exists path the trace is the deactivate command
followed by the remove command, and the reported outcome is a function of
the remove invocation's result triple alone: exit 0 from remove yields
changed true with remove's stdout/stderr, non-zero exit from remove yields
a failure carrying remove's stderr — the deactivate result is discarded. -/
theorem c10_deactivate_discarded (s : NSpec) (inv : List ConnectionRecord) (env : Env)
    (hn : s.conn_name ≠ none)
    (h1 : ¬(s.type = some "team-slave" ∧ s.master = none))
    (h2 : ¬(s.type = some "team-slave" ∧ s.ifname = none))
    (hst : s.state = "absent")
    (hex : connection_exists s inv = true) :
    (runMain s inv env false).2 =
      [ExecArg.args (down_cmd s), ExecArg.args (remove_cmd s)] ∧
    ((env (ExecArg.args (remove_cmd s))).rc = 0 →
      (runMain s inv env false).1 =
        Outcome.ok ⟨true, outOpt (env (ExecArg.args (remove_cmd s))).out,
          outOpt (env (ExecArg.args (remove_cmd s))).err⟩) ∧
    ((env (ExecArg.args (remove_cmd s))).rc ≠ 0 →
      (runMain s inv env false).1 =
        Outcome.failed (env (ExecArg.args (remove_cmd s))).err) := by
  by_cases h6 : (env (ExecArg.args (remove_cmd s))).rc ≠ 0 <;>
    simp [runMain, hn, h1, h2, hst, hex, finish, h6]

/-- C10 witness: with a failing deactivation (exit 1) and a remove exiting
0, the run reports success with changed true. -/
theorem c10_deactivate_discarded_witness :
    (runMain spec_c10 inv_c10 env_c10 false).2 =
      [ExecArg.args (down_cmd spec_c10), ExecArg.args (remove_cmd spec_c10)] ∧
    (runMain spec_c10 inv_c10 env_c10 false).1 = Outcome.ok ⟨true, none, none⟩ := by
  have h := c10_deactivate_discarded spec_c10 inv_c10 env_c10 (by decide) (by decide)
    (by decide) rfl (by decide)
  exact ⟨h.1, h.2.1 (by decide)⟩

end Nmcli
